import Mathlib

/-!
Shallow embedding of the Bragg_omega experiment-control repository.

Numbers are modelled as rationals (the Python code only performs exact
decimal arithmetic on the values the spec talks about).  Each device class
becomes a state structure; each method becomes a state-transforming
function.  Python exceptions are modelled explicitly: a method that can
raise returns its updated state together with an `Option PyError`
(mutations performed before a raise persist, as in Python).  Transport
responses (telnet reads, HTTP polls, SCPI queries) are supplied as oracle
functions, so that the embedding stays deterministic and executable.
-/

/-- Python exceptions that the modelled code can raise. -/
inductive PyError where
  | valueError
  | attributeError
  | zeroDivisionError
  deriving DecidableEq, Repr

/-! ## MuquansLaser (src/devices/MuquansLaser.py) -/

/-- The four telnet command lines the laser driver can send
(`sml780_tool Enable_Current_Laser_Diode on/off`, `sml780_tool edfa_set p`,
`sml780_tool edfa_shutdown`).  Modelled as an inductive so that no
number-to-string formatting is needed. -/
inductive LaserCmd where
  | seedOn
  | seedOff
  | edfaSet (power : ℚ)
  | edfaShutdown
  deriving DecidableEq, Repr

/-- Python truthiness of a telnet response: `if response:` is true exactly
when the response is not `None` and not the empty string. -/
def truthy : Option String → Bool
  | some s => !s.isEmpty
  | none => false

/-- State of a `MuquansLaser` object: `connected` models `self.tn is not
None`; `laser_on` and `current_power` are the cached fields; `sent` logs
every command written to the telnet link. -/
structure LaserState where
  connected : Bool
  laser_on : Bool
  current_power : ℚ
  sent : List LaserCmd
  deriving DecidableEq, Repr

namespace MuquansLaser

/-- Constructor state, `__init__`: no connection, laser off, cached power 0. -/
def init : LaserState :=
  { connected := false, laser_on := false, current_power := 0, sent := [] }

/-- Method `_send_command`: when `self.tn is None` it prints and returns `None`
without touching the link; otherwise it writes the command and returns the
(stripped) response, `none` standing for an I/O error caught inside the
method.  `oracle` is the transport oracle. -/
def send_command (s : LaserState) (oracle : LaserCmd → Option String)
    (cmd : LaserCmd) : LaserState × Option String :=
  if s.connected then ({ s with sent := s.sent ++ [cmd] }, oracle cmd) else (s, none)

/-- Method `seed_on`: sends the enable command; on a truthy response sets
`laser_on = True`. -/
def seed_on (s : LaserState) (oracle : LaserCmd → Option String) : LaserState :=
  let r := send_command s oracle .seedOn
  if truthy r.2 then { r.1 with laser_on := true } else r.1

/-- Method `seed_off`: sends the disable command; on a truthy response sets
`laser_on = False`. -/
def seed_off (s : LaserState) (oracle : LaserCmd → Option String) : LaserState :=
  let r := send_command s oracle .seedOff
  if truthy r.2 then { r.1 with laser_on := false } else r.1

/-- Method `set_power`: raises `ValueError` when the setpoint is outside
`[0, 2.5]` (before any telnet traffic); otherwise sends `edfa_set` and, on
a truthy response, caches the new power. -/
def set_power (s : LaserState) (oracle : LaserCmd → Option String)
    (power : ℚ) : LaserState × Option PyError :=
  if ¬ (0 ≤ power ∧ power ≤ 2.5) then (s, some .valueError)
  else
    let r := send_command s oracle (.edfaSet power)
    (if truthy r.2 then { r.1 with current_power := power } else r.1, none)

/-- Method `shutdown_edfa`: sends `edfa_shutdown`; on a truthy response caches
power 0. -/
def shutdown_edfa (s : LaserState) (oracle : LaserCmd → Option String) : LaserState :=
  let r := send_command s oracle .edfaShutdown
  if truthy r.2 then { r.1 with current_power := 0 } else r.1

/-- Method `shutdown`: EDFA off, then (after a fixed `time.sleep(1)` settle delay,
irrelevant to state) seed off. -/
def shutdown (s : LaserState) (oracle : LaserCmd → Option String) : LaserState :=
  seed_off (shutdown_edfa s oracle) oracle

/-- Method `disconnect`: closes the telnet object and sets it to `None` when
present; no-op otherwise. -/
def disconnect (s : LaserState) : LaserState :=
  if s.connected then { s with connected := false } else s

end MuquansLaser

/-! ## RFGenerator (src/devices/RFGenerator.py) -/

/-- A register write on the Windfreak SynthHD link: either through a
channel object (`self.synth[c].write(param, v)`) or through the device
object (`self.synth.write(param, v)`). -/
inductive RFWrite where
  | ch (channel : Nat) (param : String) (value : ℚ)
  | dev (param : String) (value : ℚ)
  deriving DecidableEq, Repr

/-- State of an `RFGenerator` object: `connected` models
`self.synth is not None` (the constructor sets `synth = None` when the
serial connection fails); the remaining fields are the attribute
assignments the driver performs (`sweep_enable`, per-channel `enable` and
`power`) and the log of register writes. -/
structure SynthState where
  connected : Bool
  sweep_enable : Bool
  ch0_enable : Bool
  ch1_enable : Bool
  ch0_power : ℚ
  ch1_power : ℚ
  writes : List RFWrite
  deriving DecidableEq, Repr

namespace RFGenerator

/-- Method `disable(channel)`: guarded by `self.synth and channel in [0, 1]`;
sets that channel's `enable` attribute to `False`. -/
def disable (s : SynthState) (channel : Nat) : SynthState :=
  if s.connected ∧ (channel = 0 ∨ channel = 1) then
    if channel = 0 then { s with ch0_enable := false }
    else { s with ch1_enable := false }
  else s

/-- The `mode_mapping` dict of `set_trigger_mode`:
no_trigger ↦ 0, full_sweep ↦ 1, step_sweep ↦ 2. -/
def mode_mapping (mode : String) : Option ℚ :=
  if mode = "no_trigger" then some 0
  else if mode = "full_sweep" then some 1
  else if mode = "step_sweep" then some 2
  else none

/-- Method `set_trigger_mode`: when connected, writes `trig_function` with the
mapped value; an unknown mode string is reported and skipped. -/
def set_trigger_mode (s : SynthState) (mode : String) : SynthState :=
  if s.connected then
    match mode_mapping mode with
    | none => s
    | some m => { s with writes := s.writes ++ [.dev "trig_function" m] }
  else s

/-- Method `configure_differential_sweep`: when connected, writes the channel-A
sweep bounds and step, enables differential mode with the offset, writes
the step time only when `4 <= step_time <= 10000` (milliseconds; otherwise
it prints and skips just that command), then sets the trigger mode. -/
def configure_differential_sweep (s : SynthState)
    (f_low f_high f_step diff_freq step_time : ℚ)
    (trigger_mode : String) : SynthState :=
  if s.connected then
    let s1 := { s with writes := s.writes ++
      [.ch 0 "sweep_freq_low" f_low,
       .ch 0 "sweep_freq_high" f_high,
       .ch 0 "sweep_freq_step" f_step,
       .dev "sweep_diff_meth" 1,
       .dev "sweep_diff_freq" diff_freq] }
    let s2 := if 4 ≤ step_time ∧ step_time ≤ 10000 then
        { s1 with writes := s1.writes ++ [.dev "sweep_time_step" step_time] }
      else s1
    set_trigger_mode s2 trigger_mode
  else s

/-- Method `shutdown`: when connected, disables the sweep, sets both channel
powers to -80 dBm, disables both channels and closes the serial link
(`self.synth.close()` does not reset `self.synth`, so `connected` — which
models `self.synth is not None` — is unchanged). -/
def shutdown (s : SynthState) : SynthState :=
  if s.connected then
    let s1 := { s with sweep_enable := false }
    let s2 := { s1 with ch0_power := -80 }
    let s3 := { s2 with ch1_power := -80 }
    let s4 := disable s3 0
    disable s4 1
  else s

end RFGenerator

/-! ## RedPitayaSignalGenerator (src/devices/RedPitayaSignalGenerator.py) -/

/-- An `asg.setup(...)` call issued to one of the Red Pitaya arbitrary
signal generators: the trigger-pulse path passes
`waveform="square", frequency, amplitude, offset,
trigger_source="immediately"`; the DC path passes `waveform="dc", offset`. -/
inductive ASGSetup where
  | square (frequency amplitude offset : ℚ) (trigger_source : String)
  | dc (offset : ℚ)
  deriving DecidableEq, Repr

/-- State of a `RedPitayaSignalGenerator` object: `connected` models
`self.pyrpl is not None`; `asg0_setups`/`asg1_setups` log the setup calls
on channel 1 / channel 2; the output fields model
`asgN.output_direct`. -/
structure RPState where
  connected : Bool
  asg0_setups : List ASGSetup
  asg1_setups : List ASGSetup
  asg0_output : String
  asg1_output : String
  deriving DecidableEq, Repr

namespace RedPitayaSignalGenerator

/-- Method `set_trigger_pulse`: no-op when not connected; rejects a duty cycle
outside `[0, 100]` or a period `<= 0` (printing and returning before any
setup call); otherwise sets up a square wave on ASG0 with
`frequency = 1/period`, `amplitude = (high-low)/2`,
`offset = (high+low)/2`. -/
def set_trigger_pulse (s : RPState)
    (high_level low_level period duty_cycle : ℚ) : RPState :=
  if s.connected then
    if ¬ (0 ≤ duty_cycle ∧ duty_cycle ≤ 100) then s
    else if period ≤ 0 then s
    else { s with asg0_setups := s.asg0_setups ++
      [.square (1 / period) ((high_level - low_level) / 2)
        ((high_level + low_level) / 2) "immediately"] }
  else s

/-- Method `set_dc_voltage`: no-op when not connected; clamps the request to the
device range `[0, 1.8]` via `max(0, min(1.8, voltage))` and sets up a DC
waveform on ASG1 with that offset. -/
def set_dc_voltage (s : RPState) (voltage : ℚ) : RPState :=
  if s.connected then
    { s with asg1_setups := s.asg1_setups ++ [.dc (max 0 (min 1.8 voltage))] }
  else s

/-- Method `disable_outputs`: when connected, turns both outputs off. -/
def disable_outputs (s : RPState) : RPState :=
  if s.connected then { s with asg0_output := "off", asg1_output := "off" }
  else s

/-- Method `disconnect`: when connected, drops the handle (`self.pyrpl = None`). -/
def disconnect (s : RPState) : RPState :=
  if s.connected then { s with connected := false } else s

end RedPitayaSignalGenerator

/-! ## RigolSA (src/devices/RigolSA.py) -/

/-- The SCPI writes the Rigol spectrum-analyzer driver can issue, with
their numeric or string payloads. -/
inductive SCPICmd where
  | centerFreq (hz : ℚ)
  | rbw (hz : ℚ)
  | vbw (hz : ℚ)
  | span0
  | sweepTime (sec : ℚ)
  | trigSource (mode : String)
  | trigSlope (edge : String)
  | initContinuous (cont : Bool)
  | initImmediate
  deriving DecidableEq, Repr

/-- State of a `RigolSA` object: `connected` models `self.sa is not None`;
`writes` logs the SCPI commands sent. -/
structure SAState where
  connected : Bool
  writes : List SCPICmd
  deriving DecidableEq, Repr

namespace RigolSA

/-- Method `set_center_frequency`. -/
def set_center_frequency (s : SAState) (freq_hz : ℚ) : SAState :=
  if s.connected then { s with writes := s.writes ++ [.centerFreq freq_hz] } else s

/-- Method `set_rbw_vbw`. -/
def set_rbw_vbw (s : SAState) (rbw_hz vbw_hz : ℚ) : SAState :=
  if s.connected then { s with writes := s.writes ++ [.rbw rbw_hz, .vbw vbw_hz] }
  else s

/-- Method `enable_zero_span_mode`. -/
def enable_zero_span_mode (s : SAState) : SAState :=
  if s.connected then { s with writes := s.writes ++ [.span0] } else s

/-- Method `set_trigger`: writes the trigger source; when the upper-cased mode is
EXT, also writes the slope. -/
def set_trigger (s : SAState) (mode edge : String) : SAState :=
  if s.connected then
    let s1 := { s with writes := s.writes ++ [.trigSource mode.toUpper] }
    if mode.toUpper = "EXT" then
      { s1 with writes := s1.writes ++ [.trigSlope edge.toUpper] }
    else s1
  else s

/-- Method `start_sweep`: writes `INITiate:CONTinuous ON/OFF`, and for a single
sweep also `INITiate:IMMediate`. -/
def start_sweep (s : SAState) (continuous : Bool) : SAState :=
  if s.connected then
    let s1 := { s with writes := s.writes ++ [.initContinuous continuous] }
    if continuous then s1
    else { s1 with writes := s1.writes ++ [.initImmediate] }
  else s

/-- Method `fetch_trace`: when connected, queries `:FETCh?` and returns the data
string (supplied here by the oracle argument `resp`); when the handle is
absent the guarded body is skipped and the method implicitly returns
`None`. -/
def fetch_trace (s : SAState) (resp : String) : Option String :=
  if s.connected then some resp else none

/-- Method `disconnect`: closes the VISA session when present.  `self.sa` itself
is not reset, so the handle-presence flag is unchanged. -/
def disconnect (s : SAState) : SAState :=
  s

end RigolSA

/-! ## Wavemeter (src/devices/WaveMeter.py)

`Wavemeter.get_frequency(channel)` performs one HTTP GET and returns the
parsed `frequency` field, or `None` on any transport/format error.  In the
embedding the poll result for each experiment step is supplied directly by
an oracle `Nat → Option ℚ` (step index ↦ reading), which covers both the
success and the failure branch. -/

/-! ## ExperimentController (src/bragg.py) -/

/-- The keyword parameters of `ExperimentController.set_experiment`. -/
structure ExperimentConfig where
  edfa_power : ℚ
  f_low : ℚ
  f_high : ℚ
  f_step : ℚ
  diff_freq : ℚ
  step_time : ℚ
  trigger_high : ℚ
  trigger_low : ℚ
  trigger_duty : ℚ
  dc_voltage : ℚ
  sa_center_freq : ℚ
  rbw : ℚ
  vbw : ℚ
  sa_sweep_time : ℚ
  deriving DecidableEq, Repr

/-- The default values of `set_experiment`'s signature. -/
def defaultConfig : ExperimentConfig :=
  { edfa_power := 1, f_low := 750e6, f_high := 3000e6, f_step := 2e6,
    diff_freq := 5e6, step_time := 1e-3, trigger_high := 1.8,
    trigger_low := 0, trigger_duty := 98, dc_voltage := 1.5,
    sa_center_freq := 5e6, rbw := 1e3, vbw := 1e3, sa_sweep_time := 1 }

/-- The arguments of the `exp.set_experiment(...)` call in the
`__main__` block of `src/bragg.py`. -/
def mainConfig : ExperimentConfig :=
  { edfa_power := 1.2, f_low := 800e6, f_high := 2500e6, f_step := 5e6,
    diff_freq := 10e6, step_time := 2e-3, trigger_high := 1.8,
    trigger_low := 0, trigger_duty := 90, dc_voltage := 1.5,
    sa_center_freq := 10e6, rbw := 1e3, vbw := 1e3, sa_sweep_time := 2 }

/-- Combined state of the five device handles owned by an
`ExperimentController`. -/
structure ExpState where
  laser : LaserState
  rf_gen : SynthState
  signal_gen : RPState
  sa : SAState
  deriving DecidableEq, Repr

/-- One entry of the `results` list built by `run_experiment`. -/
structure StepResult where
  step : Nat
  voltage : ℚ
  laser_frequency : Option ℚ
  spectrum : Option String
  deriving DecidableEq, Repr

/-- Line 83 of `src/bragg.py`:
`sweep_duration = (f_high - f_low) / f_step * step_time`. -/
def sweep_duration (f_low f_high f_step step_time : ℚ) : ℚ :=
  (f_high - f_low) / f_step * step_time

namespace ExperimentController

/-- Method `set_experiment` (src/bragg.py lines 33-103).  Line 71 calls
`self.laser.seed_on()`; line 72 then evaluates
`self.laser.set_edfa_power(edfa_power)` — but `MuquansLaser` defines no
method or attribute named `set_edfa_power` (its EDFA power setter is
`set_power`), so the attribute lookup raises `AttributeError` on every
call, with the `seed_on` mutation already applied.  Lines 74-103 are
unreachable; they are modelled separately by `set_experiment_post_laser`
below. -/
def set_experiment (oracle : LaserCmd → Option String) (cfg : ExperimentConfig)
    (st : ExpState) : ExpState × Option PyError :=
  let st1 := { st with laser := MuquansLaser.seed_on st.laser oracle }
  (st1, some PyError.attributeError)

/-- Lines 74-103 of `set_experiment`, the part after the laser
configuration (unreachable in the released code, translated here so that
the RF-sweep / pulse-period data flow of lines 74-101 can be analysed):
configures the RF differential sweep with a fixed `full_sweep` trigger
mode, computes `sweep_duration` (Python raises `ZeroDivisionError` when
`f_step == 0`), programs the trigger pulse with period
`1.1 * sweep_duration` and the DC output, then configures the spectrum
analyzer (center frequency, RBW/VBW, zero span, EXT/POS trigger; the
`set_sweep_time` call at line 100 is commented out in the source). -/
def set_experiment_post_laser (cfg : ExperimentConfig)
    (st : ExpState) : ExpState × Option PyError :=
  let st1 := { st with rf_gen := (RFGenerator.configure_differential_sweep
    st.rf_gen cfg.f_low cfg.f_high cfg.f_step cfg.diff_freq cfg.step_time
    "full_sweep") }
  if cfg.f_step = 0 then (st1, some PyError.zeroDivisionError)
  else
    let sd := sweep_duration cfg.f_low cfg.f_high cfg.f_step cfg.step_time
    let st2 := { st1 with signal_gen := (RedPitayaSignalGenerator.set_trigger_pulse
      st1.signal_gen cfg.trigger_high cfg.trigger_low (1.1 * sd) cfg.trigger_duty) }
    let st3 := { st2 with signal_gen := (RedPitayaSignalGenerator.set_dc_voltage
      st2.signal_gen cfg.dc_voltage) }
    let st4 := { st3 with sa := RigolSA.set_center_frequency st3.sa cfg.sa_center_freq }
    let st5 := { st4 with sa := RigolSA.set_rbw_vbw st4.sa cfg.rbw cfg.vbw }
    let st6 := { st5 with sa := RigolSA.enable_zero_span_mode st5.sa }
    let st7 := { st6 with sa := RigolSA.set_trigger st6.sa "EXT" "POS" }
    (st7, none)

/-- One iteration of the `for step in range(num_steps)` loop of
`run_experiment` (lines 113-136): computes
`voltage = (step / (num_steps - 1)) * 1.8` — Python raises
`ZeroDivisionError` when `num_steps - 1 == 0` — commands the DC voltage,
reads the wavemeter (oracle `wm`), starts a single SA sweep and fetches
the trace (oracle `saQ`), and builds the result record.  The trailing
`time.sleep(delay)` has no state effect. -/
def run_step (wm : Nat → Option ℚ) (saQ : Nat → String) (num_steps : Nat)
    (step : Nat) (st : ExpState) : ExpState × Except PyError StepResult :=
  if (num_steps : ℚ) - 1 = 0 then (st, Except.error PyError.zeroDivisionError)
  else
    let voltage := (step : ℚ) / ((num_steps : ℚ) - 1) * 1.8
    let st1 := { st with signal_gen := (RedPitayaSignalGenerator.set_dc_voltage
      st.signal_gen voltage) }
    let laser_freq := wm step
    let st2 := { st1 with sa := RigolSA.start_sweep st1.sa false }
    let trace := RigolSA.fetch_trace st2.sa (saQ step)
    (st2, Except.ok
      { step := step, voltage := voltage,
        laser_frequency := laser_freq, spectrum := trace })

/-- The loop of `run_experiment` over the remaining step indices,
accumulating the `results` list; an uncaught exception aborts the loop
and propagates (the partial list is lost to the caller, as in Python). -/
def run_loop (wm : Nat → Option ℚ) (saQ : Nat → String) (num_steps : Nat) :
    List Nat → ExpState → List StepResult →
    ExpState × Except PyError (List StepResult)
  | [], st, acc => (st, Except.ok acc)
  | step :: rest, st, acc =>
    match run_step wm saQ num_steps step st with
    | (st1, Except.ok r) => run_loop wm saQ num_steps rest st1 (acc ++ [r])
    | (st1, Except.error e) => (st1, Except.error e)

/-- Method `run_experiment` (src/bragg.py lines 105-139): iterates the loop body
over `range(num_steps)` starting from an empty `results` list and returns
the list.  `delay` is only ever passed to `time.sleep`, so it does not
influence the state or the results. -/
def run_experiment (wm : Nat → Option ℚ) (saQ : Nat → String)
    (num_steps : Nat) (delay : ℚ) (st : ExpState) :
    ExpState × Except PyError (List StepResult) :=
  run_loop wm saQ num_steps (List.range num_steps) st []

/-- Method `shutdown` (src/bragg.py lines 141-153): laser shutdown (EDFA off then
seed off), RF generator shutdown, signal-generator outputs off, SA
disconnect, then laser and signal-generator disconnect.  None of the
operations on this path can raise: each device method checks its
connection handle first. -/
def shutdown (oracle : LaserCmd → Option String) (st : ExpState) :
    ExpState × Option PyError :=
  let st1 := { st with laser := MuquansLaser.shutdown st.laser oracle }
  let st2 := { st1 with rf_gen := RFGenerator.shutdown st1.rf_gen }
  let st3 := { st2 with signal_gen := RedPitayaSignalGenerator.disable_outputs st2.signal_gen }
  let st4 := { st3 with sa := RigolSA.disconnect st3.sa }
  let st5 := { st4 with laser := MuquansLaser.disconnect st4.laser }
  let st6 := { st5 with signal_gen := RedPitayaSignalGenerator.disconnect st5.signal_gen }
  (st6, none)

end ExperimentController

/-! ## Concrete fixture states -/

/-- A freshly constructed `ExperimentController` on which every device
connection attempt failed (or `connect_all` was never called): all four
handles are absent, no commands have been sent. -/
def allDisconnected : ExpState :=
  { laser := MuquansLaser.init,
    rf_gen := { connected := false, sweep_enable := false, ch0_enable := false,
                ch1_enable := false, ch0_power := 0, ch1_power := 0, writes := [] },
    signal_gen := { connected := false, asg0_setups := [], asg1_setups := [],
                    asg0_output := "off", asg1_output := "off" },
    sa := { connected := false, writes := [] } }

/-- A controller state in which every device connected successfully and no
command has been issued yet. -/
def allConnected : ExpState :=
  { laser := { connected := true, laser_on := false, current_power := 0, sent := [] },
    rf_gen := { connected := true, sweep_enable := false, ch0_enable := false,
                ch1_enable := false, ch0_power := 0, ch1_power := 0, writes := [] },
    signal_gen := { connected := true, asg0_setups := [], asg1_setups := [],
                    asg0_output := "off", asg1_output := "off" },
    sa := { connected := true, writes := [] } }

/-- A telnet oracle whose every response is the string OK (truthy). -/
def okOracle : LaserCmd → Option String := fun _ => some "OK"

/-- A telnet oracle on which every exchange fails. -/
def downOracle : LaserCmd → Option String := fun _ => none

/-! ## Helper lemmas -/

/-- Method `start_sweep` only appends SCPI writes; the connection handle is
untouched. -/
theorem start_sweep_connected (s : SAState) (b : Bool) :
    (RigolSA.start_sweep s b).connected = s.connected := by
  unfold RigolSA.start_sweep
  by_cases h : s.connected <;> cases b <;> simp [h]

/-- Characterisation of one loop iteration of `run_experiment` when the
step count is not 1: no exception, the DC command and the single-sweep
commands are issued, and the result record is built from the ramp formula
and the two oracles. -/
theorem run_step_eq (wm : Nat → Option ℚ) (saQ : Nat → String) (n : Nat)
    (hg : ((n : ℚ) - 1) ≠ 0) (i : Nat) (st : ExpState) :
    ExperimentController.run_step wm saQ n i st
      = ({ st with
            signal_gen := RedPitayaSignalGenerator.set_dc_voltage st.signal_gen
              ((i : ℚ) / ((n : ℚ) - 1) * 1.8),
            sa := RigolSA.start_sweep st.sa false },
         Except.ok
           { step := i, voltage := (i : ℚ) / ((n : ℚ) - 1) * 1.8,
             laser_frequency := wm i,
             spectrum := RigolSA.fetch_trace (RigolSA.start_sweep st.sa false) (saQ i) }) := by
  simp [ExperimentController.run_step, hg]

/-- The loop of `run_experiment`, run over any list of step indices with a
step count other than 1, terminates without an exception and appends one
record per index, built from the ramp formula, the wavemeter oracle and
the SA-connection flag (which the loop never changes). -/
theorem run_loop_spec (wm : Nat → Option ℚ) (saQ : Nat → String) (n : Nat)
    (hn : n ≠ 1) (c : Bool) :
    ∀ (l : List Nat) (st : ExpState) (acc : List StepResult),
      st.sa.connected = c →
      ∃ st2, ExperimentController.run_loop wm saQ n l st acc
          = (st2, Except.ok (acc ++ l.map (fun i =>
              { step := i, voltage := (i : ℚ) / ((n : ℚ) - 1) * 1.8,
                laser_frequency := wm i,
                spectrum := if c then some (saQ i) else none })))
        ∧ st2.sa.connected = c := by
  have hg : ((n : ℚ) - 1) ≠ 0 := by
    intro h
    exact hn (by exact_mod_cast sub_eq_zero.mp h)
  intro l
  induction l with
  | nil =>
    intro st acc hc
    exact ⟨st, by simp [ExperimentController.run_loop], hc⟩
  | cons i rest ih =>
    intro st acc hc
    have hc1 : (RigolSA.start_sweep st.sa false).connected = c := by
      rw [start_sweep_connected]; exact hc
    have hspec : RigolSA.fetch_trace (RigolSA.start_sweep st.sa false) (saQ i)
        = if c then some (saQ i) else none := by
      unfold RigolSA.fetch_trace
      rw [hc1]
    obtain ⟨st2, heq, hc2⟩ := ih
      ({ st with
          signal_gen := RedPitayaSignalGenerator.set_dc_voltage st.signal_gen
            ((i : ℚ) / ((n : ℚ) - 1) * 1.8),
          sa := RigolSA.start_sweep st.sa false })
      (acc ++ [{ step := i, voltage := (i : ℚ) / ((n : ℚ) - 1) * 1.8,
                 laser_frequency := wm i,
                 spectrum := if c then some (saQ i) else none }])
      hc1
    refine ⟨st2, ?_, hc2⟩
    rw [ExperimentController.run_loop, run_step_eq wm saQ n hg i st, hspec]
    simpa [List.append_assoc] using heq

/-! ## Claim theorems -/

/-- C1: the claim fails on the code as shipped.  For every configuration
(the `__main__` one included) `set_experiment` raises `AttributeError` at
the `self.laser.set_edfa_power(...)` call of line 72 — `MuquansLaser` has
no such method — so execution never reaches the RF-sweep configuration or
the `set_trigger_pulse` call.  The arithmetic of lines 83 and 91 is
nevertheless exactly the claimed one: for f_low=800e6, f_high=2500e6,
f_step=5e6, step_time=2e-3 the sweep duration is 0.68 s and the pulse
period 0.748 s, and the unreachable remainder of the function (modelled by
`set_experiment_post_laser`) would program ASG0 with frequency 1/0.748 and
the configured high/low levels. -/
theorem set_experiment_crashes_before_pulse_period :
    (∀ (oracle : LaserCmd → Option String) (st : ExpState),
      (ExperimentController.set_experiment oracle mainConfig st).2
        = some PyError.attributeError)
    ∧ sweep_duration mainConfig.f_low mainConfig.f_high mainConfig.f_step
        mainConfig.step_time = 0.68
    ∧ 1.1 * sweep_duration mainConfig.f_low mainConfig.f_high mainConfig.f_step
        mainConfig.step_time = 0.748
    ∧ (ExperimentController.set_experiment_post_laser mainConfig
        allConnected).1.signal_gen.asg0_setups
        = [ASGSetup.square (1 / 0.748) ((1.8 - 0) / 2) ((1.8 + 0) / 2)
            "immediately"] := by
  refine ⟨fun oracle st => rfl, ?_, ?_, ?_⟩
  · norm_num [sweep_duration, mainConfig]
  · norm_num [sweep_duration, mainConfig]
  · norm_num [ExperimentController.set_experiment_post_laser, mainConfig,
      allConnected, sweep_duration,
      RFGenerator.configure_differential_sweep, RFGenerator.set_trigger_mode,
      RFGenerator.mode_mapping,
      RedPitayaSignalGenerator.set_trigger_pulse,
      RedPitayaSignalGenerator.set_dc_voltage,
      RigolSA.set_center_frequency, RigolSA.set_rbw_vbw,
      RigolSA.enable_zero_span_mode, RigolSA.set_trigger]

/-- C2: for every `num_steps > 1`, every delay, every pair of device
oracles and every starting state, `run_experiment` returns (with no
exception) exactly `num_steps` records in step order `0..num_steps-1`;
the record of step `i` holds voltage `i/(num_steps-1)*1.8`, the wavemeter
reading for that step (possibly `none` — the loop continues past failed
reads), and the trace the spectrum analyzer returned; the voltages
strictly increase from 0 at step 0 to 1.8 at step `num_steps-1`. -/
theorem run_experiment_ramp (wm : Nat → Option ℚ) (saQ : Nat → String)
    (num_steps : Nat) (delay : ℚ) (st : ExpState) (h : 1 < num_steps) :
    (∃ st2, ExperimentController.run_experiment wm saQ num_steps delay st
        = (st2, Except.ok ((List.range num_steps).map (fun i =>
            { step := i, voltage := (i : ℚ) / ((num_steps : ℚ) - 1) * 1.8,
              laser_frequency := wm i,
              spectrum := if st.sa.connected then some (saQ i) else none }))))
    ∧ ((List.range num_steps).map (fun i =>
          ({ step := i, voltage := (i : ℚ) / ((num_steps : ℚ) - 1) * 1.8,
             laser_frequency := wm i,
             spectrum := if st.sa.connected then some (saQ i) else none }
            : StepResult))).length = num_steps
    ∧ (∀ i j : ℕ, i < j → j < num_steps →
        (i : ℚ) / ((num_steps : ℚ) - 1) * 1.8
          < (j : ℚ) / ((num_steps : ℚ) - 1) * 1.8)
    ∧ ((0 : ℕ) : ℚ) / ((num_steps : ℚ) - 1) * 1.8 = 0
    ∧ ((num_steps - 1 : ℕ) : ℚ) / ((num_steps : ℚ) - 1) * 1.8 = 1.8 := by
  have hn : num_steps ≠ 1 := by omega
  have hpos : (0 : ℚ) < (num_steps : ℚ) - 1 := by
    have h1 : (1 : ℚ) < (num_steps : ℚ) := by exact_mod_cast h
    linarith
  refine ⟨?_, by simp, ?_, by simp, ?_⟩
  · obtain ⟨st2, heq, -⟩ := run_loop_spec wm saQ num_steps hn st.sa.connected
      (List.range num_steps) st [] rfl
    exact ⟨st2, by simpa [ExperimentController.run_experiment] using heq⟩
  · intro i j hij hj
    gcongr
  · have h1 : ((num_steps - 1 : ℕ) : ℚ) = (num_steps : ℚ) - 1 := by
      push_cast [Nat.cast_sub (by omega : 1 ≤ num_steps)]
      ring
    rw [h1, div_self (ne_of_gt hpos), one_mul]

/-- C2 witness: an explicit 5-step run with delay 0 and a wavemeter
whose first read fails. -/
theorem run_experiment_ramp_witness :
    1 < 5
    ∧ ((∃ st2, ExperimentController.run_experiment
          (fun i => if i = 0 then none else some 1) (fun _ => "trace") 5 0
          allDisconnected
        = (st2, Except.ok ((List.range 5).map (fun i =>
            { step := i, voltage := (i : ℚ) / ((5 : ℚ) - 1) * 1.8,
              laser_frequency := if i = 0 then none else some 1,
              spectrum := if allDisconnected.sa.connected
                then some "trace" else none }))))
      ∧ ((List.range 5).map (fun i =>
            ({ step := i, voltage := (i : ℚ) / ((5 : ℚ) - 1) * 1.8,
               laser_frequency := if i = 0 then none else some 1,
               spectrum := if allDisconnected.sa.connected
                 then some "trace" else none } : StepResult))).length = 5
      ∧ (∀ i j : ℕ, i < j → j < 5 →
          (i : ℚ) / ((5 : ℚ) - 1) * 1.8 < (j : ℚ) / ((5 : ℚ) - 1) * 1.8)
      ∧ ((0 : ℕ) : ℚ) / ((5 : ℚ) - 1) * 1.8 = 0
      ∧ ((5 - 1 : ℕ) : ℚ) / ((5 : ℚ) - 1) * 1.8 = 1.8) :=
  ⟨by decide,
   run_experiment_ramp (fun i => if i = 0 then none else some 1)
     (fun _ => "trace") 5 0 allDisconnected (by decide)⟩

/-- C3: the claim fails on the code.  `set_experiment` does enable the
laser seed path first (line 71), but line 72 then looks up
`set_edfa_power` on the `MuquansLaser` object, which defines only
`set_power`; every call — for every configuration, telnet oracle and
device state — therefore raises `AttributeError`, and the amplifier power
(and the cached `current_power`) is never set. -/
theorem set_experiment_attribute_error (oracle : LaserCmd → Option String)
    (cfg : ExperimentConfig) (st : ExpState) :
    ExperimentController.set_experiment oracle cfg st
      = ({ st with laser := MuquansLaser.seed_on st.laser oracle },
         some PyError.attributeError) := rfl

/-- C4: with `num_steps = 1` the first loop iteration of `run_experiment`
computes `step / (num_steps - 1)` with a zero divisor: the call raises
`ZeroDivisionError` for every oracle, delay and starting state, and in
particular does not instead return a result list with a fixed 0 V
record. -/
theorem run_experiment_single_step_divzero (wm : Nat → Option ℚ)
    (saQ : Nat → String) (delay : ℚ) (st : ExpState) :
    (ExperimentController.run_experiment wm saQ 1 delay st).2
        = Except.error PyError.zeroDivisionError
    ∧ ∀ rs : List StepResult,
        (ExperimentController.run_experiment wm saQ 1 delay st).2
          ≠ Except.ok rs := by
  have h : (ExperimentController.run_experiment wm saQ 1 delay st).2
      = Except.error PyError.zeroDivisionError := by
    simp [ExperimentController.run_experiment, ExperimentController.run_loop,
      ExperimentController.run_step]
  refine ⟨h, fun rs hrs => ?_⟩
  rw [h] at hrs
  exact Except.noConfusion hrs

/-- C5: `MuquansLaser.set_power` rejects every setpoint outside [0, 2.5]
with a `ValueError` raised before any telnet traffic, returning the state
— command log and cached `current_power` included — unchanged; for every
setpoint inside [0, 2.5] no error is raised. -/
theorem set_power_range_check (s : LaserState) (oracle : LaserCmd → Option String)
    (p : ℚ) :
    (¬ (0 ≤ p ∧ p ≤ 2.5) →
      MuquansLaser.set_power s oracle p = (s, some PyError.valueError))
    ∧ ((0 ≤ p ∧ p ≤ 2.5) → (MuquansLaser.set_power s oracle p).2 = none) := by
  constructor
  · intro h
    simp [MuquansLaser.set_power, h]
  · intro h
    simp [MuquansLaser.set_power, h]

/-- C5 witness: power 3 is rejected with the state unchanged; power 1
raises nothing. -/
theorem set_power_range_check_witness :
    MuquansLaser.set_power allConnected.laser okOracle 3
        = (allConnected.laser, some PyError.valueError)
    ∧ (MuquansLaser.set_power allConnected.laser okOracle 1).2 = none :=
  ⟨(set_power_range_check allConnected.laser okOracle 3).1 (by norm_num),
   (set_power_range_check allConnected.laser okOracle 1).2 (by norm_num)⟩

/-- C6: `set_trigger_pulse` with a duty cycle outside [0, 100] or a
period ≤ 0 returns without issuing any setup command or touching output
state — the device state is returned unchanged, connected or not; with
valid arguments on a connected device it issues exactly one ASG0 square
setup with frequency `1/period`, amplitude `(high-low)/2` and offset
`(high+low)/2`. -/
theorem set_trigger_pulse_validation (s : RPState) (high low period duty : ℚ) :
    ((¬ (0 ≤ duty ∧ duty ≤ 100) ∨ period ≤ 0) →
      RedPitayaSignalGenerator.set_trigger_pulse s high low period duty = s)
    ∧ (s.connected = true → (0 ≤ duty ∧ duty ≤ 100) → 0 < period →
      RedPitayaSignalGenerator.set_trigger_pulse s high low period duty
        = { s with asg0_setups := s.asg0_setups ++
            [ASGSetup.square (1 / period) ((high - low) / 2) ((high + low) / 2)
              "immediately"] }) := by
  constructor
  · intro hbad
    by_cases hc : s.connected
    · by_cases hduty : 0 ≤ duty ∧ duty ≤ 100
      · have hper : period ≤ 0 := by tauto
        simp [RedPitayaSignalGenerator.set_trigger_pulse, hc, hduty, hper]
      · simp [RedPitayaSignalGenerator.set_trigger_pulse, hc, hduty]
    · simp [RedPitayaSignalGenerator.set_trigger_pulse, hc]
  · intro hc hduty hper
    simp [RedPitayaSignalGenerator.set_trigger_pulse, hc, hduty, not_le.mpr hper]

/-- C6 witness: duty cycle 101 is rejected with no state change; duty 90
with period 0.748 programs the square setup. -/
theorem set_trigger_pulse_validation_witness :
    RedPitayaSignalGenerator.set_trigger_pulse allConnected.signal_gen
        1.8 0 0.748 101 = allConnected.signal_gen
    ∧ RedPitayaSignalGenerator.set_trigger_pulse allConnected.signal_gen
        1.8 0 0.748 90
        = { allConnected.signal_gen with
            asg0_setups := allConnected.signal_gen.asg0_setups ++
              [ASGSetup.square (1 / 0.748) ((1.8 - 0) / 2) ((1.8 + 0) / 2)
                "immediately"] } :=
  ⟨(set_trigger_pulse_validation allConnected.signal_gen 1.8 0 0.748 101).1
      (Or.inl (by norm_num)),
   (set_trigger_pulse_validation allConnected.signal_gen 1.8 0 0.748 90).2
      rfl (by norm_num) (by norm_num)⟩

/-- C7: `ExperimentController.shutdown` invoked while every connection
handle is absent (as before any successful `connect_all`) raises nothing
and leaves every device state — cached fields and command logs included —
unchanged: each device operation on the path checks its handle first and
no-ops, printing at most a message. -/
theorem shutdown_noop_disconnected (oracle : LaserCmd → Option String)
    (st : ExpState) (h1 : st.laser.connected = false)
    (h2 : st.rf_gen.connected = false) (h3 : st.signal_gen.connected = false)
    (h4 : st.sa.connected = false) :
    ExperimentController.shutdown oracle st = (st, none) := by
  simp [ExperimentController.shutdown, MuquansLaser.shutdown,
    MuquansLaser.shutdown_edfa, MuquansLaser.seed_off, MuquansLaser.send_command,
    MuquansLaser.disconnect, truthy, RFGenerator.shutdown,
    RedPitayaSignalGenerator.disable_outputs, RedPitayaSignalGenerator.disconnect,
    RigolSA.disconnect, h1, h2, h3]

/-- C7 witness: shutting down a freshly constructed controller on which
every connection attempt failed returns the state unchanged and raises
nothing. -/
theorem shutdown_noop_disconnected_witness :
    ExperimentController.shutdown downOracle allDisconnected
      = (allDisconnected, none) :=
  shutdown_noop_disconnected downOracle allDisconnected rfl rfl rfl rfl

/-- C8: on a connected RF generator with a valid trigger-mode string,
`configure_differential_sweep` appends exactly the sweep-bound and step
writes, the differential-mode and offset writes, then the
`sweep_time_step` write if and only if `4 ≤ step_time ≤ 10000`
(milliseconds; out of range it reports a message and skips only that
command), then the `trig_function` write for the requested mode.
(`ExperimentController.set_experiment` forwards its `step_time` argument
— documented in seconds — unchanged at its call site on line 80 of
src/bragg.py, in the part of `set_experiment` modelled by
`set_experiment_post_laser`.) -/
theorem configure_differential_sweep_step_time (s : SynthState)
    (f_low f_high f_step diff_freq t : ℚ) (mode : String) (m : ℚ)
    (hc : s.connected = true) (hm : RFGenerator.mode_mapping mode = some m) :
    (RFGenerator.configure_differential_sweep s f_low f_high f_step diff_freq t
        mode).writes
      = s.writes ++
        [RFWrite.ch 0 "sweep_freq_low" f_low,
         RFWrite.ch 0 "sweep_freq_high" f_high,
         RFWrite.ch 0 "sweep_freq_step" f_step,
         RFWrite.dev "sweep_diff_meth" 1,
         RFWrite.dev "sweep_diff_freq" diff_freq]
        ++ (if 4 ≤ t ∧ t ≤ 10000 then [RFWrite.dev "sweep_time_step" t] else [])
        ++ [RFWrite.dev "trig_function" m]
    ∧ (RFWrite.dev "sweep_time_step" t ∈
        ((RFGenerator.configure_differential_sweep s f_low f_high f_step
          diff_freq t mode).writes.drop s.writes.length)
      ↔ (4 ≤ t ∧ t ≤ 10000)) := by
  have hmain : (RFGenerator.configure_differential_sweep s f_low f_high f_step
      diff_freq t mode).writes
      = s.writes ++
        [RFWrite.ch 0 "sweep_freq_low" f_low,
         RFWrite.ch 0 "sweep_freq_high" f_high,
         RFWrite.ch 0 "sweep_freq_step" f_step,
         RFWrite.dev "sweep_diff_meth" 1,
         RFWrite.dev "sweep_diff_freq" diff_freq]
        ++ (if 4 ≤ t ∧ t ≤ 10000 then [RFWrite.dev "sweep_time_step" t] else [])
        ++ [RFWrite.dev "trig_function" m] := by
    by_cases hr : 4 ≤ t ∧ t ≤ 10000 <;>
      simp [RFGenerator.configure_differential_sweep,
        RFGenerator.set_trigger_mode, hc, hm, hr, List.append_assoc]
  refine ⟨hmain, ?_⟩
  rw [hmain, List.append_assoc, List.append_assoc, List.drop_left]
  by_cases hr : 4 ≤ t ∧ t ≤ 10000 <;> simp [hr]

/-- C8 witness: with a 5 ms step time on a connected generator the
step-time register write is issued alongside the sweep, differential and
trigger writes. -/
theorem configure_differential_sweep_step_time_witness :
    ((RFGenerator.configure_differential_sweep allConnected.rf_gen
        800 2500 5 10 5 "full_sweep").writes
      = allConnected.rf_gen.writes ++
        [RFWrite.ch 0 "sweep_freq_low" 800,
         RFWrite.ch 0 "sweep_freq_high" 2500,
         RFWrite.ch 0 "sweep_freq_step" 5,
         RFWrite.dev "sweep_diff_meth" 1,
         RFWrite.dev "sweep_diff_freq" 10]
        ++ (if (4 : ℚ) ≤ 5 ∧ (5 : ℚ) ≤ 10000
            then [RFWrite.dev "sweep_time_step" 5] else [])
        ++ [RFWrite.dev "trig_function" 1])
    ∧ (RFWrite.dev "sweep_time_step" (5 : ℚ) ∈
        ((RFGenerator.configure_differential_sweep allConnected.rf_gen
          800 2500 5 10 5 "full_sweep").writes.drop
            allConnected.rf_gen.writes.length)
      ↔ ((4 : ℚ) ≤ 5 ∧ (5 : ℚ) ≤ 10000)) :=
  configure_differential_sweep_step_time allConnected.rf_gen
    800 2500 5 10 5 "full_sweep" 1 rfl (by simp [RFGenerator.mode_mapping])

/-- C9: on a connected device `set_dc_voltage` issues a DC setup whose
offset is the request clamped to the device range via
`max(0, min(1.8, voltage))`; the commanded level therefore always lies in
[0, 1.8], and equals the request whenever the request is already in
range. -/
theorem set_dc_voltage_clamps (s : RPState) (v : ℚ) (hc : s.connected = true) :
    RedPitayaSignalGenerator.set_dc_voltage s v
        = { s with asg1_setups := s.asg1_setups
              ++ [ASGSetup.dc (max 0 (min 1.8 v))] }
    ∧ 0 ≤ max 0 (min 1.8 v)
    ∧ max 0 (min 1.8 v) ≤ 1.8
    ∧ (0 ≤ v → v ≤ 1.8 → max 0 (min 1.8 v) = v) := by
  refine ⟨by simp [RedPitayaSignalGenerator.set_dc_voltage, hc],
    le_max_left 0 _, max_le (by norm_num) (min_le_left _ _), ?_⟩
  intro h0 h18
  rw [min_eq_right h18, max_eq_right h0]

/-- C9 witness: a 2.5 V request is commanded as its clamp to [0, 1.8]; a
1.5 V request passes through unchanged. -/
theorem set_dc_voltage_clamps_witness :
    (RedPitayaSignalGenerator.set_dc_voltage allConnected.signal_gen 2.5
        = { allConnected.signal_gen with
            asg1_setups := allConnected.signal_gen.asg1_setups
              ++ [ASGSetup.dc (max 0 (min 1.8 2.5))] }
      ∧ 0 ≤ max 0 (min 1.8 (2.5 : ℚ))
      ∧ max 0 (min 1.8 (2.5 : ℚ)) ≤ 1.8
      ∧ ((0 : ℚ) ≤ 2.5 → (2.5 : ℚ) ≤ 1.8 → max 0 (min 1.8 (2.5 : ℚ)) = 2.5))
    ∧ max 0 (min 1.8 (1.5 : ℚ)) = 1.5 :=
  ⟨set_dc_voltage_clamps allConnected.signal_gen 2.5 rfl,
   (set_dc_voltage_clamps allConnected.signal_gen 1.5 rfl).2.2.2
     (by norm_num) (by norm_num)⟩

/-- C10: with the spectrum-analyzer handle absent, `fetch_trace` falls
through its guard and returns `None`; consequently a run with a
disconnected analyzer (any step count other than the crashing 1) succeeds
with the `spectrum` field of every record null, exactly as the
`laser_frequency` field is null whenever the wavemeter read for that step
failed. -/
theorem fetch_trace_none_disconnected (resp : String) (sa0 : SAState)
    (wm : Nat → Option ℚ) (saQ : Nat → String) (n : Nat) (delay : ℚ)
    (st : ExpState) (h0 : sa0.connected = false) (h1 : st.sa.connected = false)
    (hn : n ≠ 1) :
    RigolSA.fetch_trace sa0 resp = none
    ∧ ∃ st2, ExperimentController.run_experiment wm saQ n delay st
        = (st2, Except.ok ((List.range n).map (fun i =>
            { step := i, voltage := (i : ℚ) / ((n : ℚ) - 1) * 1.8,
              laser_frequency := wm i, spectrum := none }))) := by
  constructor
  · simp [RigolSA.fetch_trace, h0]
  · obtain ⟨st2, heq, -⟩ := run_loop_spec wm saQ n hn false (List.range n) st [] h1
    exact ⟨st2, by simpa [ExperimentController.run_experiment] using heq⟩

/-- C10 witness: a 2-step run with every device disconnected and every
wavemeter read failing yields records whose spectrum and frequency are
both null. -/
theorem fetch_trace_none_disconnected_witness :
    RigolSA.fetch_trace allDisconnected.sa "trace" = none
    ∧ ∃ st2, ExperimentController.run_experiment (fun _ => none)
        (fun _ => "trace") 2 0 allDisconnected
        = (st2, Except.ok ((List.range 2).map (fun i =>
            { step := i, voltage := (i : ℚ) / ((2 : ℚ) - 1) * 1.8,
              laser_frequency := none, spectrum := none }))) :=
  fetch_trace_none_disconnected "trace" allDisconnected.sa (fun _ => none)
    (fun _ => "trace") 2 0 allDisconnected rfl rfl (by decide)
